import Mathlib

/-!
Shallow embedding of the babelfish Discord relay bot (src/main.rs):
the data model, channel classifier, reply resolver, routing decision
logic, relay record store, and the per-message orchestrator workflow
of `Handler::message`.  Discord snowflake identifiers are modelled as
`Nat`; the external collaborators (the DeepL HTTP call and the
Discord send) are modelled as explicit oracles passed to the
workflow, whose deterministic post-processing is embedded from the
source.
-/

/-- One DeepL translation item (main.rs lines 54-58). -/
structure Translation where
  text : String
  detected_source_language : String
  deriving Repr, DecidableEq

/-- A relay record: the stored value of the translations map
(main.rs lines 63-68, struct `PastTranslation`). -/
structure PastTranslation where
  channel_id : Nat
  message_id : Nat
  language : String
  deriving Repr, DecidableEq

/-- The pending outgoing route (main.rs lines 69-73, struct `BotMessage`). -/
structure BotMessage where
  target_channel_id : Nat
  target_language : String
  target_reply_to_message : Nat
  deriving Repr, DecidableEq

/-- The fields of a referenced (replied-to) Discord message that the
program reads: its id and its author's id (main.rs lines 353-369). -/
structure RefMsg where
  id : Nat
  author_id : Nat
  deriving Repr, DecidableEq

/-- The fields of an inbound Discord message that `Handler::message`
reads (main.rs lines 110-306): id, channel, author id, author
name/nickname, content, and the optional referenced message. -/
structure Message where
  id : Nat
  channel_id : Nat
  author_id : Nat
  author_name : String
  author_nick : Option String
  content : String
  referenced_message : Option RefMsg
  deriving Repr, DecidableEq

/-- Normalized reply context (main.rs lines 99-104, struct `ReplyTo`). -/
structure ReplyTo where
  message : Option RefMsg
  message_id : Nat
  author_id : Nat
  deriving Repr, DecidableEq

/-- Application configuration (main.rs lines 85-93, struct `AppConfig`);
the token and API key play no role in routing and are omitted.  The
`HashMap<ChannelId, String>` is modelled as an association list. -/
structure AppConfig where
  bot_user_id : Nat
  aggregate_channel_id : Nat
  source_channel_language : List (Nat × String)
  default_language : String
  deriving Repr, DecidableEq

/-- The relay record store: `HashMap<MessageId, PastTranslation>`
modelled as an association list keyed by message id. -/
abbrev Store := List (Nat × PastTranslation)

/-- `HashMap::get` (store lookup). -/
def storeGet (s : Store) (k : Nat) : Option PastTranslation :=
  s.lookup k

/-- `HashMap::entry(k).or_insert(v)` (main.rs lines 260 and 302):
write only if the key is absent, first writer wins. -/
def storePutIfAbsent (s : Store) (k : Nat) (v : PastTranslation) : Store :=
  match s.lookup k with
  | some _ => s
  | none => (k, v) :: s

/-- `is_bot_message` (main.rs lines 345-347). -/
def is_bot_message (bot_id : Nat) (message_author_id : Nat) : Bool :=
  bot_id == message_author_id

/-- `is_monitored_channel` (main.rs lines 349-351). -/
def is_monitored_channel (agg_channel_id : Nat)
    (source_channel_list : List (Nat × String)) (msg_channel_id : Nat) : Bool :=
  msg_channel_id == agg_channel_id || (source_channel_list.lookup msg_channel_id).isSome

/-- `get_replied_to_message` (main.rs lines 353-369): the reply
resolver.  Absence yields the sentinel context (id 0, author 0). -/
def get_replied_to_message (msg : Option RefMsg) : ReplyTo :=
  match msg with
  | some m =>
      { message := some m, message_id := m.id, author_id := m.author_id }
  | none =>
      { message := none, message_id := 0, author_id := 0 }

/-- Source-language resolution, embedded from main.rs lines 146-155:
the configured language if the channel is in the map, else the
default language if the channel is the aggregate channel, else
`none` (the handler returns without routing). -/
def resolveSourceLanguage (config : AppConfig) (channel_id : Nat) : Option String :=
  match config.source_channel_language.lookup channel_id with
  | some l => some l
  | none =>
      if channel_id != config.aggregate_channel_id then none
      else some config.default_language

/-- The routing decision logic of `Handler::message`, embedded from
main.rs lines 139-142 (standalone-aggregate rejection), 174-180
(default route), 202-221 (store-lookup override) and 225-240
(non-bot-reply override).  `none` is rejection. -/
def routingDecision (config : AppConfig) (msg : Message) (reply_to : ReplyTo)
    (store : Store) : Option BotMessage :=
  if msg.channel_id == config.aggregate_channel_id && reply_to.message_id == 0 then
    none
  else
    let target0 : BotMessage :=
      { target_channel_id := config.aggregate_channel_id,
        target_language := config.default_language,
        target_reply_to_message := msg.id }
    let target1 : BotMessage :=
      match storeGet store reply_to.message_id with
      | some s =>
          { target_channel_id := s.channel_id,
            target_language := s.language,
            target_reply_to_message := s.message_id }
      | none => target0
    let target2 : BotMessage :=
      match reply_to.message with
      | some replying_to =>
          if replying_to.id != 0 &&
             replying_to.author_id != config.bot_user_id &&
             msg.channel_id != config.aggregate_channel_id then
            { target_channel_id := config.aggregate_channel_id,
              target_language := config.default_language,
              target_reply_to_message := 0 }
          else target1
      | none => target1
    some target2

/-- The deterministic tail of `translate_message` (main.rs lines
336-341): given the first translation returned by the DeepL
collaborator, if its detected source language equals the requested
target language, return an empty text tagged with that language;
otherwise return the first translation unchanged. -/
def translate_message (language_code : String) (first_translation : Translation) :
    Translation :=
  if first_translation.detected_source_language == language_code then
    { text := "", detected_source_language := language_code }
  else first_translation

/-- An attempted outgoing Discord post (main.rs lines 269-286):
target channel, formatted content, and the optional message
reference `(channel, message)` used for threading. -/
structure Post where
  channel_id : Nat
  content : String
  reference : Option (Nat × Nat)
  deriving Repr, DecidableEq

/-- Result of the Discord send collaborator: the posted message id
on success, or an error (main.rs lines 288-305). -/
inductive SendResult where
  | ok (posted_id : Nat)
  | err
  deriving Repr, DecidableEq

/-- Observable events of one workflow run, in program order:
store writes (via put-if-absent) and attempted sends. -/
inductive Event where
  | putIfAbsent (k : Nat) (v : PastTranslation)
  | send (p : Post)
  deriving Repr, DecidableEq

/-- Replay the store writes of a trace onto an initial store. -/
def replay (s : Store) : List Event → Store
  | [] => s
  | Event.putIfAbsent k v :: rest => replay (storePutIfAbsent s k v) rest
  | Event.send _ :: rest => replay s rest

/-- The attempted sends of a trace. -/
def sends (tr : List Event) : List Post :=
  tr.filterMap fun e =>
    match e with
    | Event.send p => some p
    | _ => none

/-- The sender display name: nickname when available, else the
author's username (main.rs lines 264-267). -/
def from_name (msg : Message) : String :=
  match msg.author_nick with
  | some nickname => nickname
  | none => msg.author_name

/-- The whole per-message workflow `Handler::message` (main.rs lines
110-306), as the trace of store writes and send attempts it
produces.  `provider` is the DeepL collaborator: the first
translation it returns for a given (content, target language); `sr`
is the outcome of the Discord send.  An empty trace is a rejected
(unrouted) message. -/
def handlerTrace (config : AppConfig) (store : Store) (msg : Message)
    (provider : String → String → Translation) (sr : SendResult) : List Event :=
  if is_bot_message config.bot_user_id msg.author_id then []
  else if !is_monitored_channel config.aggregate_channel_id
      config.source_channel_language msg.channel_id then []
  else
    let reply_to := get_replied_to_message msg.referenced_message
    match resolveSourceLanguage config msg.channel_id with
    | none => []
    | some channel_lang =>
      match routingDecision config msg reply_to store with
      | none => []
      | some target_message =>
        let translation :=
          translate_message target_message.target_language
            (provider msg.content target_message.target_language)
        let past_translation : PastTranslation :=
          { channel_id := msg.channel_id, message_id := msg.id,
            language := channel_lang }
        let content := translation.text ++ " (from: " ++ from_name msg ++ ")"
        let reference :=
          if reply_to.message_id != 0 &&
             is_bot_message config.bot_user_id reply_to.author_id then
            some (target_message.target_channel_id,
                  target_message.target_reply_to_message)
          else none
        let post : Post :=
          { channel_id := target_message.target_channel_id,
            content := content, reference := reference }
        Event.putIfAbsent msg.id past_translation ::
        Event.send post ::
        (match sr with
         | SendResult.err => []
         | SendResult.ok posted_id =>
             [Event.putIfAbsent posted_id
               { channel_id := msg.channel_id, message_id := msg.id,
                 language := translation.detected_source_language }])

/-- Concrete configuration for the worked scenarios: source channel 1
carries French, channel 2 is the aggregate channel, default language
is British English, the bot's user id is 99. -/
def cfg : AppConfig :=
  { bot_user_id := 99, aggregate_channel_id := 2,
    source_channel_language := [(1, "FR")], default_language := "EN-GB" }

/-- Scenario message: "Bonjour" posted by Alice in source channel 1. -/
def msg10 : Message :=
  { id := 10, channel_id := 1, author_id := 7, author_name := "Alice",
    author_nick := none, content := "Bonjour", referenced_message := none }

/-- A DeepL oracle that translates into English and back to French. -/
def provider1 : String → String → Translation := fun _content lang =>
  if lang == "EN-GB" then { text := "Hello", detected_source_language := "FR" }
  else { text := "Bonjour", detected_source_language := "EN-GB" }

/-- Scenario message: Bob replies in the aggregate channel 2 to the
bot-authored relayed post 20. -/
def msg30 : Message :=
  { id := 30, channel_id := 2, author_id := 8, author_name := "Bob",
    author_nick := none, content := "Hi back",
    referenced_message := some { id := 20, author_id := 99 } }

/-- A DeepL oracle whose detected source language always equals the
requested target language, making every translation a no-op. -/
def noopProvider : String → String → Translation := fun _content lang =>
  { text := "ignored", detected_source_language := lang }

/-- Scenario message: Alice replies in source channel 1 to a
bot-authored message 41 for which the store has no record. -/
def msg50 : Message :=
  { id := 50, channel_id := 1, author_id := 7, author_name := "Alice",
    author_nick := none, content := "Encore",
    referenced_message := some { id := 41, author_id := 99 } }

/-- Scenario message: Carol replies in source channel 1 to an
ordinary (non-bot) message 41. -/
def msg70 : Message :=
  { id := 70, channel_id := 1, author_id := 11, author_name := "Carol",
    author_nick := none, content := "Oui",
    referenced_message := some { id := 41, author_id := 7 } }

/-- Scenario message: a standalone (non-reply) message posted
directly in the aggregate channel 2. -/
def msg80 : Message :=
  { id := 80, channel_id := 2, author_id := 8, author_name := "Bob",
    author_nick := none, content := "Solo",
    referenced_message := none }

/-- A channel whose source language resolves is a monitored channel:
it is either in the source map or it is the aggregate channel. -/
theorem monitored_of_resolve {config : AppConfig} {ch : Nat} {l : String}
    (h : resolveSourceLanguage config ch = some l) :
    is_monitored_channel config.aggregate_channel_id
      config.source_channel_language ch = true := by
  unfold resolveSourceLanguage at h
  unfold is_monitored_channel
  cases hl : config.source_channel_language.lookup ch with
  | some v => simp [hl]
  | none =>
      rw [hl] at h
      by_cases hch : ch = config.aggregate_channel_id
      · simp [hch]
      · simp [hch] at h

/-- C3: putIfAbsent is first-writer-wins: writing A then B under the
same (previously unwritten) key leaves A in the store. -/
theorem C3_putIfAbsent_first_writer_wins (s : Store) (id : Nat)
    (A B : PastTranslation) (h : storeGet s id = none) :
    storeGet (storePutIfAbsent (storePutIfAbsent s id A) id B) id = some A := by
  unfold storeGet at h ⊢
  unfold storePutIfAbsent
  rw [h]
  simp [List.lookup, h]

/-- Witness for C3 at a concrete store, key and records. -/
theorem C3_witness :
    storeGet
      (storePutIfAbsent
        (storePutIfAbsent [(5, ⟨2, 5, "DE"⟩)] 10 ⟨1, 10, "FR"⟩)
        10 ⟨2, 10, "EN-GB"⟩) 10 = some ⟨1, 10, "FR"⟩ :=
  C3_putIfAbsent_first_writer_wins [(5, ⟨2, 5, "DE"⟩)] 10 ⟨1, 10, "FR"⟩
    ⟨2, 10, "EN-GB"⟩ (by decide)

/-- C7: resolveSourceLanguage returns the configured language when
the channel is in the source map; otherwise the default language
when the channel is the aggregate channel; otherwise none
(unmonitored, the workflow ends without routing). -/
theorem C7_resolveSourceLanguage_cases (config : AppConfig) (ch : Nat) :
    (∀ l, config.source_channel_language.lookup ch = some l →
        resolveSourceLanguage config ch = some l) ∧
    (config.source_channel_language.lookup ch = none →
        ch = config.aggregate_channel_id →
        resolveSourceLanguage config ch = some config.default_language) ∧
    (config.source_channel_language.lookup ch = none →
        ch ≠ config.aggregate_channel_id →
        resolveSourceLanguage config ch = none) := by
  refine ⟨?_, ?_, ?_⟩
  · intro l hl
    unfold resolveSourceLanguage
    rw [hl]
  · intro hl hch
    unfold resolveSourceLanguage
    rw [hl]
    simp [hch]
  · intro hl hch
    unfold resolveSourceLanguage
    rw [hl]
    simp [hch]

/-- Witness for C7: the three cases at concrete channels of `cfg`. -/
theorem C7_witness :
    resolveSourceLanguage cfg 1 = some "FR" ∧
    resolveSourceLanguage cfg 2 = some "EN-GB" ∧
    resolveSourceLanguage cfg 3 = none :=
  ⟨(C7_resolveSourceLanguage_cases cfg 1).1 "FR" (by decide),
   (C7_resolveSourceLanguage_cases cfg 2).2.1 (by decide) (by decide),
   (C7_resolveSourceLanguage_cases cfg 3).2.2 (by decide) (by decide)⟩

/-- C8: the routing decision is deterministic: identical message,
reply context, store snapshot and config yield identical output. -/
theorem C8_routing_deterministic (c₁ c₂ : AppConfig) (m₁ m₂ : Message)
    (r₁ r₂ : ReplyTo) (s₁ s₂ : Store)
    (hc : c₁ = c₂) (hm : m₁ = m₂) (hr : r₁ = r₂) (hs : s₁ = s₂) :
    routingDecision c₁ m₁ r₁ s₁ = routingDecision c₂ m₂ r₂ s₂ := by
  subst hc hm hr hs
  rfl

/-- Witness for C8 at concrete inputs. -/
theorem C8_witness :
    routingDecision cfg msg10 (get_replied_to_message msg10.referenced_message) [] =
      routingDecision cfg msg10 (get_replied_to_message msg10.referenced_message) [] :=
  C8_routing_deterministic cfg cfg msg10 msg10
    (get_replied_to_message msg10.referenced_message)
    (get_replied_to_message msg10.referenced_message) [] [] rfl rfl rfl rfl

/-- C9: the reply resolver is total and never fails: a supplied
referenced message yields its id and author id (with the message
present), and absence yields the sentinel no-reply context. -/
theorem C9_resolveReply_total (m : RefMsg) :
    get_replied_to_message (some m) =
      { message := some m, message_id := m.id, author_id := m.author_id } ∧
    get_replied_to_message none =
      { message := none, message_id := 0, author_id := 0 } :=
  ⟨rfl, rfl⟩

/-- C2: when the store lookup of the referenced message id returns a
record R and no later rule overrides (the referenced message, if
carried, has the sentinel id, or is bot-authored, or the current
channel is the aggregate channel), the routing decision is
exactly the reversed route {R.channelId, R.language, R.messageId}. -/
theorem C2_store_lookup_override (config : AppConfig) (msg : Message)
    (reply_to : ReplyTo) (store : Store) (R : PastTranslation)
    (hlook : storeGet store reply_to.message_id = some R)
    (hid : reply_to.message_id ≠ 0)
    (hno : ∀ r, reply_to.message = some r →
        r.id = 0 ∨ r.author_id = config.bot_user_id ∨
        msg.channel_id = config.aggregate_channel_id) :
    routingDecision config msg reply_to store =
      some { target_channel_id := R.channel_id, target_language := R.language,
             target_reply_to_message := R.message_id } := by
  unfold routingDecision
  have h0 : (reply_to.message_id == 0) = false := by simp [hid]
  rw [hlook, h0]
  simp only [Bool.and_false, Bool.false_eq_true, if_false]
  cases hm : reply_to.message with
  | none => simp
  | some r =>
      rcases hno r hm with h | h | h
      · simp [h]
      · simp [h]
      · simp [h]

/-- Witness for C2, realising the round-trip scenario: message 10
("Bonjour", channel 1, language FR) is relayed and posted as message
20; a reply to message 20 in the aggregate channel then routes back
to channel 1, language FR, anchored at message 10. -/
theorem C2_witness :
    routingDecision cfg msg30 (get_replied_to_message msg30.referenced_message)
      (replay [] (handlerTrace cfg [] msg10 provider1 (SendResult.ok 20))) =
      some { target_channel_id := 1, target_language := "FR",
             target_reply_to_message := 10 } :=
  C2_store_lookup_override cfg msg30
    (get_replied_to_message msg30.referenced_message)
    (replay [] (handlerTrace cfg [] msg10 provider1 (SendResult.ok 20)))
    { channel_id := 1, message_id := 10, language := "FR" }
    rfl (by decide) (fun _ _ => Or.inr (Or.inr rfl))

/-- C5: a reply to a present, non-sentinel referenced message whose
author is not the bot, from a channel other than the aggregate
channel, always routes to the aggregate channel in the default
language with no reply anchor (sentinel 0), overriding whatever the
store-lookup rule produced (the store is universally quantified). -/
theorem C5_nonbot_reply_override (config : AppConfig) (msg : Message)
    (store : Store) (r : RefMsg)
    (href : msg.referenced_message = some r)
    (hid : r.id ≠ 0)
    (hauthor : r.author_id ≠ config.bot_user_id)
    (hch : msg.channel_id ≠ config.aggregate_channel_id) :
    routingDecision config msg (get_replied_to_message msg.referenced_message) store =
      some { target_channel_id := config.aggregate_channel_id,
             target_language := config.default_language,
             target_reply_to_message := 0 } := by
  rw [href]
  unfold routingDecision get_replied_to_message
  simp [hch, hid, hauthor]

/-- Witness for C5: Carol replies in source channel 1 to the non-bot
message 41; even though the store has a record under key 41 (so the
lookup rule applies), the final route is the aggregate channel 2,
default language, no anchor. -/
theorem C5_witness :
    routingDecision cfg msg70 (get_replied_to_message msg70.referenced_message)
      [(41, { channel_id := 1, message_id := 40, language := "FR" })] =
      some { target_channel_id := 2, target_language := "EN-GB",
             target_reply_to_message := 0 } :=
  C5_nonbot_reply_override cfg msg70
    [(41, { channel_id := 1, message_id := 40, language := "FR" })]
    { id := 41, author_id := 7 } rfl (by decide) (by decide) (by decide)

/-- A routing decision whose rejection guard is false produces a
route. -/
theorem routingDecision_isSome (config : AppConfig) (msg : Message)
    (reply_to : ReplyTo) (store : Store)
    (hguard : (msg.channel_id == config.aggregate_channel_id &&
        reply_to.message_id == 0) = false) :
    ∃ t, routingDecision config msg reply_to store = some t := by
  unfold routingDecision
  rw [hguard]
  simp

/-- Characterisation of a routed (non-rejected) workflow run: the
trace is the original-message record write, then the send attempt,
then (on success only) the reverse-pointer record write. -/
theorem handlerTrace_eq (config : AppConfig) (store : Store) (msg : Message)
    (provider : String → String → Translation) (sr : SendResult)
    (lang : String) (t : BotMessage)
    (h1 : is_bot_message config.bot_user_id msg.author_id = false)
    (hlang : resolveSourceLanguage config msg.channel_id = some lang)
    (hroute : routingDecision config msg
        (get_replied_to_message msg.referenced_message) store = some t) :
    handlerTrace config store msg provider sr =
      Event.putIfAbsent msg.id
        { channel_id := msg.channel_id, message_id := msg.id, language := lang } ::
      Event.send
        { channel_id := t.target_channel_id,
          content :=
            (translate_message t.target_language
              (provider msg.content t.target_language)).text ++
            " (from: " ++ from_name msg ++ ")",
          reference :=
            if (get_replied_to_message msg.referenced_message).message_id != 0 &&
               is_bot_message config.bot_user_id
                 (get_replied_to_message msg.referenced_message).author_id then
              some (t.target_channel_id, t.target_reply_to_message)
            else none } ::
      (match sr with
       | SendResult.err => []
       | SendResult.ok posted_id =>
           [Event.putIfAbsent posted_id
             { channel_id := msg.channel_id, message_id := msg.id,
               language :=
                 (translate_message t.target_language
                   (provider msg.content t.target_language)).detected_source_language }]) := by
  unfold handlerTrace
  rw [h1, monitored_of_resolve hlang, hlang]
  simp only [Bool.not_true, Bool.false_eq_true, if_false]
  rw [hroute]

/-- A run whose routing decision is a rejection produces an empty
trace: nothing is stored and nothing is sent. -/
theorem handlerTrace_nil_of_routing_none (config : AppConfig) (store : Store)
    (msg : Message) (provider : String → String → Translation) (sr : SendResult)
    (hroute : routingDecision config msg
        (get_replied_to_message msg.referenced_message) store = none) :
    handlerTrace config store msg provider sr = [] := by
  unfold handlerTrace
  by_cases hb : is_bot_message config.bot_user_id msg.author_id = true
  · simp [hb]
  · rw [Bool.not_eq_true] at hb
    by_cases hm : is_monitored_channel config.aggregate_channel_id
        config.source_channel_language msg.channel_id = true
    · rw [hb, hm]
      simp only [Bool.not_true, Bool.false_eq_true, if_false]
      cases hl : resolveSourceLanguage config msg.channel_id with
      | none => rfl
      | some l => simp [hroute]
    · rw [Bool.not_eq_true] at hm
      simp [hb, hm]

/-- C6: a non-reply message posted directly in the aggregate channel
yields an empty trace: no route, no post, and no store write. -/
theorem C6_standalone_aggregate_rejected (config : AppConfig) (store : Store)
    (msg : Message) (provider : String → String → Translation) (sr : SendResult)
    (hch : msg.channel_id = config.aggregate_channel_id)
    (href : msg.referenced_message = none) :
    handlerTrace config store msg provider sr = [] ∧
    sends (handlerTrace config store msg provider sr) = [] ∧
    replay store (handlerTrace config store msg provider sr) = store := by
  have hroute : routingDecision config msg
      (get_replied_to_message msg.referenced_message) store = none := by
    rw [href]
    unfold routingDecision get_replied_to_message
    simp [hch]
  have h := handlerTrace_nil_of_routing_none config store msg provider sr hroute
  refine ⟨h, ?_, ?_⟩
  · rw [h]; rfl
  · rw [h]; rfl

/-- Witness for C6: Bob's standalone message in the aggregate
channel 2 produces no events at all. -/
theorem C6_witness :
    handlerTrace cfg [] msg80 provider1 (SendResult.ok 90) = [] ∧
    sends (handlerTrace cfg [] msg80 provider1 (SendResult.ok 90)) = [] ∧
    replay [] (handlerTrace cfg [] msg80 provider1 (SendResult.ok 90)) = [] :=
  C6_standalone_aggregate_rejected cfg [] msg80 provider1 (SendResult.ok 90) rfl rfl

/-- C1 counterexample: in a run whose translation is a no-op (the
detected source language equals the route's target language, so the
translated text is empty), the workflow still posts a message to the
target channel — the annotated empty text — contradicting the claim
that no message is posted and that a post is sent only for
non-empty, differing translated text. -/
theorem C1_counterexample_noop_still_posts :
    (translate_message "EN-GB" (noopProvider "Bonjour" "EN-GB")).text = "" ∧
    sends (handlerTrace cfg [] msg10 noopProvider (SendResult.ok 20)) =
      [{ channel_id := 2, content := " (from: Alice)", reference := none }] := by
  decide

/-- C1 (amended): for every routed run whose translation is a no-op
(the provider's detected source language equals the requested target
language, so the translated text is empty), the original-message
record is still written, and a message is still posted to the target
channel: the send is unconditional and carries just the display-name
annotation around the empty translated text. -/
theorem C1_amended_unconditional_post (config : AppConfig) (store : Store)
    (msg : Message) (provider : String → String → Translation) (sr : SendResult)
    (lang : String)
    (h1 : is_bot_message config.bot_user_id msg.author_id = false)
    (hlang : resolveSourceLanguage config msg.channel_id = some lang)
    (hguard : (msg.channel_id == config.aggregate_channel_id &&
        (get_replied_to_message msg.referenced_message).message_id == 0) = false)
    (hnoop : ∀ l, (provider msg.content l).detected_source_language = l) :
    ∃ p rest,
      handlerTrace config store msg provider sr =
        Event.putIfAbsent msg.id
          { channel_id := msg.channel_id, message_id := msg.id, language := lang } ::
        Event.send p :: rest ∧
      p.content = " (from: " ++ from_name msg ++ ")" := by
  obtain ⟨t, ht⟩ := routingDecision_isSome config msg
    (get_replied_to_message msg.referenced_message) store hguard
  rw [handlerTrace_eq config store msg provider sr lang t h1 hlang ht]
  refine ⟨_, _, rfl, ?_⟩
  simp [translate_message, hnoop]

/-- Witness for the amended C1: Alice's "Bonjour" under the
always-no-op provider still writes the record under key 10 and still
sends an annotated empty post. -/
theorem C1_amended_witness :
    ∃ p rest,
      handlerTrace cfg [] msg10 noopProvider (SendResult.ok 20) =
        Event.putIfAbsent msg10.id
          { channel_id := msg10.channel_id, message_id := msg10.id,
            language := "FR" } ::
        Event.send p :: rest ∧
      p.content = " (from: " ++ from_name msg10 ++ ")" :=
  C1_amended_unconditional_post cfg [] msg10 noopProvider (SendResult.ok 20) "FR"
    (by decide) rfl (by decide) (fun _ => rfl)

/-- C4: in every routed run, the original-message record (keyed by
the message's own id, carrying its channel and its resolved source
language) is written before the send is attempted; when the send
fails, the workflow ends with exactly that record write and the send
attempt — the record is still present afterwards and no
reverse-pointer record is added. -/
theorem C4_record_before_post_no_rollback (config : AppConfig) (store : Store)
    (msg : Message) (provider : String → String → Translation) (lang : String)
    (h1 : is_bot_message config.bot_user_id msg.author_id = false)
    (hlang : resolveSourceLanguage config msg.channel_id = some lang)
    (hguard : (msg.channel_id == config.aggregate_channel_id &&
        (get_replied_to_message msg.referenced_message).message_id == 0) = false)
    (habsent : storeGet store msg.id = none) :
    ∃ p, handlerTrace config store msg provider SendResult.err =
        [Event.putIfAbsent msg.id
          { channel_id := msg.channel_id, message_id := msg.id, language := lang },
         Event.send p] ∧
      storeGet (replay store (handlerTrace config store msg provider SendResult.err))
        msg.id =
        some { channel_id := msg.channel_id, message_id := msg.id, language := lang } := by
  obtain ⟨t, ht⟩ := routingDecision_isSome config msg
    (get_replied_to_message msg.referenced_message) store hguard
  rw [handlerTrace_eq config store msg provider SendResult.err lang t h1 hlang ht]
  refine ⟨_, rfl, ?_⟩
  unfold storeGet at habsent ⊢
  simp [replay, storePutIfAbsent, habsent, List.lookup]

/-- Witness for C4: Alice's message 10 with a failing send leaves
exactly the original record under key 10 and no second record. -/
theorem C4_witness :
    ∃ p, handlerTrace cfg [] msg10 provider1 SendResult.err =
        [Event.putIfAbsent msg10.id
          { channel_id := msg10.channel_id, message_id := msg10.id,
            language := "FR" },
         Event.send p] ∧
      storeGet (replay [] (handlerTrace cfg [] msg10 provider1 SendResult.err))
        msg10.id =
        some { channel_id := msg10.channel_id, message_id := msg10.id,
               language := "FR" } :=
  C4_record_before_post_no_rollback cfg [] msg10 provider1 "FR"
    (by decide) rfl (by decide) rfl

/-- C10: a message in a source channel replying to a bot-authored
message that has no store record keeps the default route (aggregate
channel, default language, reply anchor the current message's own
id), and the outgoing post is sent to the aggregate channel as a
threaded reply anchored at that id — an id from the source channel,
not from the aggregate channel the post goes into. -/
theorem C10_bot_reply_without_record (config : AppConfig) (store : Store)
    (msg : Message) (provider : String → String → Translation) (sr : SendResult)
    (lang : String) (r : RefMsg)
    (h1 : is_bot_message config.bot_user_id msg.author_id = false)
    (h2 : config.source_channel_language.lookup msg.channel_id = some lang)
    (hch : msg.channel_id ≠ config.aggregate_channel_id)
    (href : msg.referenced_message = some r)
    (hbot : r.author_id = config.bot_user_id)
    (hid : r.id ≠ 0)
    (hnone : storeGet store r.id = none) :
    routingDecision config msg (get_replied_to_message msg.referenced_message) store =
      some { target_channel_id := config.aggregate_channel_id,
             target_language := config.default_language,
             target_reply_to_message := msg.id } ∧
    ∃ p rest,
      handlerTrace config store msg provider sr =
        Event.putIfAbsent msg.id
          { channel_id := msg.channel_id, message_id := msg.id, language := lang } ::
        Event.send p :: rest ∧
      p.channel_id = config.aggregate_channel_id ∧
      p.reference = some (config.aggregate_channel_id, msg.id) := by
  have hroute : routingDecision config msg
      (get_replied_to_message msg.referenced_message) store =
      some { target_channel_id := config.aggregate_channel_id,
             target_language := config.default_language,
             target_reply_to_message := msg.id } := by
    rw [href]
    unfold routingDecision get_replied_to_message
    unfold storeGet at hnone
    simp [hch, hbot, hnone, storeGet]
  have hlang : resolveSourceLanguage config msg.channel_id = some lang := by
    unfold resolveSourceLanguage
    rw [h2]
  refine ⟨hroute, ?_⟩
  rw [handlerTrace_eq config store msg provider sr lang _ h1 hlang hroute]
  refine ⟨_, _, rfl, rfl, ?_⟩
  rw [href]
  unfold get_replied_to_message is_bot_message
  simp [hid, hbot]

/-- Witness for C10: Alice replies in source channel 1 to the
bot-authored message 41, unknown to the store; the post goes to the
aggregate channel 2 threaded on message 50, which lives in channel 1. -/
theorem C10_witness :
    routingDecision cfg msg50 (get_replied_to_message msg50.referenced_message) [] =
      some { target_channel_id := 2, target_language := "EN-GB",
             target_reply_to_message := 50 } ∧
    ∃ p rest,
      handlerTrace cfg [] msg50 provider1 (SendResult.ok 60) =
        Event.putIfAbsent msg50.id
          { channel_id := msg50.channel_id, message_id := msg50.id,
            language := "FR" } ::
        Event.send p :: rest ∧
      p.channel_id = 2 ∧
      p.reference = some (2, msg50.id) :=
  C10_bot_reply_without_record cfg [] msg50 provider1 (SendResult.ok 60) "FR"
    { id := 41, author_id := 99 }
    (by decide) rfl (by decide) rfl rfl (by decide) rfl
